import Mathlib

/- The library marks the arithmetic of `Rat` irreducible, which blocks the
evaluation of concrete rational computations inside `decide`; the embedding
below is executable by design, so reducibility is restored.  This is
elaboration metadata only: it does not change any definition or proof. -/
set_option allowUnsafeReducibility true in
attribute [semireducible] Rat.mul Rat.add Rat.sub Rat.div Rat.inv

/-!
Verification of the interview-orchestrator core of the Education repository.

The definitions below are shallow embeddings of the Python source:

* `app/graph/interview_state.py` — the state machine tables and `get_next_state`;
* `app/agents/session_manager.py` — `check_transition_simple`;
* `app/agents/memory_agent.py` — `MemoryAgent.update_simple`;
* `app/agents/difficulty_engine.py` — `_clamp_difficulty`;
* `app/agents/base_agent.py` — `parse_json_response` (with a model of the
  markdown-fence regular expression and of `json.loads`);
* `app/api/interview.py` and `app/services/session_store.py` — the final-report
  endpoint and the report cache.

Python machine integers are embedded as `Int`.  Python floats are embedded as
exact rationals together with an explicit IEEE-754 double-rounding function
`roundDouble` (round to nearest, ties to even, 53-bit significand): every
arithmetic step of the source that operates on floats is followed by
`roundDouble`, so the embedded values are exactly the rationals denoted by the
doubles the program computes (no overflow or subnormals occur in the magnitudes
involved, which all lie well inside the range covered by the exponent search).
-/

/-! ## Interview state machine (`app/graph/interview_state.py`) -/

/-- The `InterviewState` string enum of `app/models/interview_schemas.py`. -/
inductive InterviewState where
  | INTRO
  | WARMUP
  | CORE_QUESTIONS
  | PRESSURE_ROUND
  | COMMUNICATION_TEST
  | CLOSING
  | FEEDBACK
deriving DecidableEq, BEq, Repr

/-- The `.value` string of each `InterviewState` member. -/
def InterviewState.value : InterviewState → String
  | .INTRO => "INTRO"
  | .WARMUP => "WARMUP"
  | .CORE_QUESTIONS => "CORE_QUESTIONS"
  | .PRESSURE_ROUND => "PRESSURE_ROUND"
  | .COMMUNICATION_TEST => "COMMUNICATION_TEST"
  | .CLOSING => "CLOSING"
  | .FEEDBACK => "FEEDBACK"

/-- `STATE_QUESTION_LIMITS` of `interview_state.py` (a dict keyed by every
state, so the `.get(state, 1)` default of the callers is unreachable). -/
def STATE_QUESTION_LIMITS : InterviewState → Int
  | .INTRO => 1
  | .WARMUP => 1
  | .CORE_QUESTIONS => 3
  | .PRESSURE_ROUND => 2
  | .COMMUNICATION_TEST => 1
  | .CLOSING => 1
  | .FEEDBACK => 0

/-- `STATE_ORDER` of `interview_state.py`. -/
def STATE_ORDER : List InterviewState :=
  [.INTRO, .WARMUP, .CORE_QUESTIONS, .PRESSURE_ROUND,
   .COMMUNICATION_TEST, .CLOSING, .FEEDBACK]

/-- `get_next_state` of `interview_state.py`: the successor in `STATE_ORDER`,
with `FEEDBACK` returned at the end of the list. -/
def get_next_state (current_state : InterviewState) : InterviewState :=
  let current_index := STATE_ORDER.indexOf current_state
  if current_index < STATE_ORDER.length - 1 then
    (STATE_ORDER.get? (current_index + 1)).getD InterviewState.FEEDBACK
  else
    InterviewState.FEEDBACK

/-- Position of a state in `STATE_ORDER`. -/
def stateIndex (s : InterviewState) : Nat := STATE_ORDER.indexOf s

/-- The `StateTransition` pydantic model of `interview_schemas.py`. -/
structure StateTransition where
  should_transition : Bool
  next_state : InterviewState
  reason : String
  state_instructions : String
deriving DecidableEq, Repr

/-- `SessionManagerAgent._get_state_instructions` of `session_manager.py`
(a dict keyed by every state, so the `.get(state, ...)` default is
unreachable). -/
def _get_state_instructions : InterviewState → String
  | .INTRO => "Start with a warm introduction. Ask the candidate to introduce themselves."
  | .WARMUP => "Ask easy, foundational questions to build confidence."
  | .CORE_QUESTIONS => "Ask main technical or behavioral questions based on the role and config."
  | .PRESSURE_ROUND => "Ask challenging scenario-based questions with constraints and trade-offs."
  | .COMMUNICATION_TEST => "Ask explanation-focused questions requiring clear articulation."
  | .CLOSING => "Give the candidate a chance to ask questions. Summarize the interview."
  | .FEEDBACK => "Generate the final report and conclude the interview."

/-- `SessionManagerAgent.check_transition_simple` of `session_manager.py`:
the deterministic, LLM-free transition check. -/
def check_transition_simple (current_state : InterviewState)
    (questions_in_state : Int) : StateTransition :=
  let required := STATE_QUESTION_LIMITS current_state
  let should_transition : Bool := questions_in_state ≥ required
  if should_transition then
    let next_state := get_next_state current_state
    { should_transition := true
      next_state := next_state
      reason := "Completed " ++ toString questions_in_state ++ " question(s) in "
        ++ current_state.value ++ " state."
      state_instructions := _get_state_instructions next_state }
  else
    { should_transition := false
      next_state := current_state
      reason := "Need " ++ toString (required - questions_in_state)
        ++ " more question(s) in " ++ current_state.value ++ " state."
      state_instructions := _get_state_instructions current_state }

/-- One step of a transition-check-driven state sequence: the next state
returned by a firing `check_transition_simple` call becomes the current state
of the following call (`orchestrator.py`, step 7 of `process_answer`). -/
def followTransition (s : InterviewState) (n : Int) : InterviewState :=
  let t := check_transition_simple s n
  if t.should_transition then t.next_state else s

/-! ## Difficulty clamping (`app/agents/difficulty_engine.py`) -/

/-- Input domain of `_clamp_difficulty`: Python's `int(x)` conversion succeeds
on integers and on strings spelling an integer, and raises `ValueError` or
`TypeError` on non-numeric input. -/
inductive DifficultyInput where
  | ofInt (n : Int)
  | ofNumStr (n : Int)
  | nonNumeric
deriving DecidableEq, Repr

/-- The result of Python's `int(x)` on a `DifficultyInput`; `none` models the
raised `ValueError`/`TypeError`. -/
def pyIntCoerce : DifficultyInput → Option Int
  | .ofInt n => some n
  | .ofNumStr n => some n
  | .nonNumeric => none

/-- `DifficultyEngineAgent._clamp_difficulty` of `difficulty_engine.py`. -/
def _clamp_difficulty (difficulty : DifficultyInput) : Int :=
  match pyIntCoerce difficulty with
  | some d => max 1 (min 5 d)
  | none => 3

/-! ## Exact model of IEEE-754 double rounding

Python floats are IEEE-754 binary64 values; every such value is an exact
rational.  `roundDouble q` is the rational denoted by the double nearest to
`q` (ties to even), for magnitudes inside `[2^(-60), 2^60)`, which amply
covers every quantity of the interview pipeline (scores, averages and
thresholds all lie in `[0.05, 100]`). -/

/-- Floor of a rational as an integer (floor division of numerator by
denominator). -/
def ratFloor (x : ℚ) : Int := Int.fdiv x.num (x.den : Int)

/-- The rational `2 ^ e` for an integer exponent `e`. -/
def pow2 (e : Int) : ℚ :=
  if 0 ≤ e then ((2 ^ e.toNat : Nat) : ℚ) else 1 / ((2 ^ (-e).toNat : Nat) : ℚ)

/-- Round a rational to an integer, ties to even (the rounding used both by
IEEE-754 binary arithmetic and by Python's decimal `round`). -/
def roundHalfEven (x : ℚ) : Int :=
  let n := ratFloor x
  let r := x - n
  if r < 1/2 then n
  else if 1/2 < r then n + 1
  else if n % 2 = 0 then n else n + 1

/-- Bounded search for the floor of the base-2 logarithm of a positive
rational, starting at exponent `n` with `fuel` steps. -/
def log2floorAux : Nat → Int → ℚ → Int
  | 0, n, _ => n
  | fuel + 1, n, a => if a < pow2 (n + 1) then n else log2floorAux fuel (n + 1) a

/-- Floor of the base-2 logarithm of a positive rational, valid for
magnitudes in `[2^(-60), 2^60)`. -/
def log2floor (a : ℚ) : Int := log2floorAux 121 (-60) a

/-- The exact rational value of the IEEE-754 binary64 double nearest to `q`
(round to nearest, ties to even). -/
def roundDouble (q : ℚ) : ℚ :=
  if q = 0 then 0
  else
    let a := if q < 0 then -q else q
    let n := log2floor a
    let scaled := a * pow2 (52 - n)
    let m := roundHalfEven scaled
    let mag := (m : ℚ) * pow2 (n - 52)
    if q < 0 then -mag else mag

/-- Float addition: one IEEE-754 rounding after the exact sum. -/
def fadd (x y : ℚ) : ℚ := roundDouble (x + y)

/-- Float subtraction: one IEEE-754 rounding after the exact difference. -/
def fsub (x y : ℚ) : ℚ := roundDouble (x - y)

/-- Float division: one IEEE-754 rounding after the exact quotient. -/
def fdivq (x y : ℚ) : ℚ := roundDouble (x / y)

/-- The double denoted by the Python literal `0.3`. -/
def floatPointThree : ℚ := roundDouble (3 / 10)

/-- Python's `round(x, 2)` on a float: the decimal value of `x` rounded to
two fractional digits (ties to even), re-rounded to the nearest double
(CPython's float `round` is correctly rounded). -/
def pyRound2 (x : ℚ) : ℚ := roundDouble ((roundHalfEven (x * 100) : ℚ) / 100)

/-! ## Evaluations and memory (`app/models/interview_schemas.py`,
`app/agents/memory_agent.py`) -/

/-- The `AnswerEvaluation` pydantic model (text fields that the memory and
difficulty logic never read are kept as plain strings). -/
structure AnswerEvaluation where
  technical_score : Int
  reasoning_depth : Int
  communication_clarity : Int
  structure_score : Int
  confidence_signals : Int
  issues_detected : List String
  feedback : String
  follow_up_suggestion : String
deriving DecidableEq, Repr

/-- The `average_score` property of `AnswerEvaluation`: the five scores summed
exactly (Python ints), then divided by `5.0` with one float rounding. -/
def AnswerEvaluation.average_score (e : AnswerEvaluation) : ℚ :=
  fdivq ((e.technical_score + e.reasoning_depth + e.communication_clarity
    + e.structure_score + e.confidence_signals : Int) : ℚ) 5

/-- The `CommunicationPatterns` pydantic model. -/
structure CommunicationPatterns where
  rambling : Int
  unclear : Int
  structured : Int
  verbose : Int
  hesitant : Int
  confident : Int
deriving DecidableEq, Repr

/-- The `InterviewMemory` pydantic model. -/
structure InterviewMemory where
  asked_questions : List String
  weak_areas : List String
  strong_areas : List String
  communication_patterns : CommunicationPatterns
  performance_trend : String
  average_score : ℚ
deriving DecidableEq, Repr

/-- Does `cs` start with the characters of `needle`? -/
def leadMatch : List Char → List Char → Bool
  | [], _ => true
  | _ :: _, [] => false
  | a :: as, b :: bs => a == b && leadMatch as bs

/-- Does `hay` contain `needle` as a contiguous run (Python's `in` on
strings, for a non-empty needle)? -/
def subSearch (needle : List Char) : List Char → Bool
  | [] => leadMatch needle []
  | c :: cs => leadMatch needle (c :: cs) || subSearch needle cs

/-- Python's `needle in hay` on strings. -/
def pyContains (hay needle : String) : Bool := subSearch needle.toList hay.toList

/-- Helper for `pyTitle`: the flag records whether the previous character was
alphabetic. -/
def pyTitleAux : Bool → List Char → List Char
  | _, [] => []
  | prevAlpha, c :: cs =>
    (if c.isAlpha then (if prevAlpha then c.toLower else c.toUpper) else c)
      :: pyTitleAux c.isAlpha cs

/-- Python's `str.title()` (for the ASCII keyword vocabulary used here). -/
def pyTitle (s : String) : String := ⟨pyTitleAux false s.toList⟩

/-- The fixed `areas` vocabulary of `MemoryAgent._extract_area_from_question`. -/
def memoryAreas : List String :=
  ["algorithms", "data structures", "system design", "databases",
   "api", "microservices", "testing", "debugging", "performance",
   "security", "networking", "cloud", "devops", "leadership",
   "teamwork", "communication", "problem solving", "coding"]

/-- `MemoryAgent._extract_area_from_question` of `memory_agent.py`: first
keyword contained in the lowercased question, title-cased; `""` if none. -/
def _extract_area_from_question (question : String) : String :=
  let question_lower := question.toLower
  match memoryAreas.find? (fun area => pyContains question_lower area) with
  | some area => pyTitle area
  | none => ""

/-- `MemoryAgent.update_simple` of `memory_agent.py`: the deterministic,
LLM-free memory update.  Float arithmetic of the source is embedded with an
explicit IEEE-754 rounding after each operation; Python's `sum` folds from
the left starting at `0`. -/
def MemoryAgent.update_simple (current_memory : InterviewMemory)
    (new_evaluation : AnswerEvaluation) (question : String)
    (all_evaluations : List AnswerEvaluation) : InterviewMemory :=
  let asked_questions := current_memory.asked_questions ++ [question]
  let avg_score : ℚ :=
    if all_evaluations.isEmpty then new_evaluation.average_score
    else
      fdivq (all_evaluations.foldl (fun acc e => fadd acc e.average_score) 0)
        (all_evaluations.length : ℚ)
  let area := _extract_area_from_question question
  let weakCond : Prop := new_evaluation.average_score < 5/2 ∧ area ≠ ""
    ∧ area ∉ current_memory.weak_areas
  let strongCond : Prop := new_evaluation.average_score ≥ 4 ∧ area ≠ ""
    ∧ area ∉ current_memory.strong_areas
  let weak_areas := if weakCond then current_memory.weak_areas ++ [area]
    else current_memory.weak_areas
  let strong_areas := if ¬ weakCond ∧ strongCond then
    current_memory.strong_areas ++ [area] else current_memory.strong_areas
  let patterns : CommunicationPatterns :=
    { rambling := current_memory.communication_patterns.rambling
        + (if "rambling" ∈ new_evaluation.issues_detected then 1 else 0)
      unclear := current_memory.communication_patterns.unclear
        + (if "unclear" ∈ new_evaluation.issues_detected then 1 else 0)
      structured := current_memory.communication_patterns.structured
        + (if new_evaluation.structure_score ≥ 4 then 1 else 0)
      verbose := current_memory.communication_patterns.verbose
        + (if "verbose" ∈ new_evaluation.issues_detected then 1 else 0)
      hesitant := current_memory.communication_patterns.hesitant
        + (if new_evaluation.confidence_signals ≤ 2 then 1 else 0)
      confident := current_memory.communication_patterns.confident
        + (if new_evaluation.confidence_signals ≥ 4 then 1 else 0) }
  let trend : String :=
    if all_evaluations.length ≥ 4 then
      let first_avg := fdivq ((all_evaluations.take 2).foldl
        (fun acc e => fadd acc e.average_score) 0) 2
      let last_avg := fdivq ((all_evaluations.drop (all_evaluations.length - 2)).foldl
        (fun acc e => fadd acc e.average_score) 0) 2
      if last_avg > fadd first_avg floatPointThree then "improving"
      else if last_avg < fsub first_avg floatPointThree then "declining"
      else "stable"
    else "stable"
  { asked_questions := asked_questions
    weak_areas := weak_areas
    strong_areas := strong_areas
    communication_patterns := patterns
    performance_trend := trend
    average_score := pyRound2 avg_score }

/-! ## JSON values and `json.loads` (`app/agents/base_agent.py`)

`parse_json_response` feeds the LLM reply through a markdown-fence regular
expression and `json.loads`.  `Json` is the value domain of `json.loads`
(dicts, lists, strings, numbers, booleans, null); `jsonLoads` is a
recursive-descent model of `json.loads` covering objects, arrays, strings
with the single-character escapes, integer and fractional decimal numbers,
booleans and null (exponents and unicode escapes are outside the model; no
input of the theorems below uses them). -/

/-- The Python values produced by `json.loads`. -/
inductive Json where
  | null
  | bool (b : Bool)
  | num (q : ℚ)
  | str (s : String)
  | arr (items : List Json)
  | obj (fields : List (String × Json))

/-- Is the value a Python dict? -/
def Json.isObj : Json → Bool
  | .obj _ => true
  | _ => false

/-- First value bound to `key` in a JSON object, `none` otherwise. -/
def Json.objLookup : Json → String → Option Json
  | .obj fields, key => (fields.find? (fun f => f.1 == key)).map (·.2)
  | _, _ => none

/-- JSON whitespace (the characters `json.loads` skips between tokens). -/
def isJsonWs (c : Char) : Bool := c = ' ' || c = '\t' || c = '\n' || c = '\r'

/-- Drop leading JSON whitespace. -/
def skipJsonWs : List Char → List Char
  | [] => []
  | c :: cs => if isJsonWs c then skipJsonWs cs else c :: cs

/-- The character a single-character JSON string escape denotes. -/
def jsonEscChar (c : Char) : Option Char :=
  if c = '"' then some '"'
  else if c = '\\' then some '\\'
  else if c = '/' then some '/'
  else if c = 'b' then some (Char.ofNat 8)
  else if c = 'f' then some (Char.ofNat 12)
  else if c = 'n' then some '\n'
  else if c = 'r' then some '\r'
  else if c = 't' then some '\t'
  else none

/-- Body of a JSON string after the opening quote: the decoded characters and
the rest of the input after the closing quote. -/
def jsonStrAux : List Char → Option (List Char × List Char)
  | [] => none
  | '"' :: cs => some ([], cs)
  | '\\' :: [] => none
  | '\\' :: e :: cs =>
    match jsonEscChar e with
    | some ec => (jsonStrAux cs).map (fun r => (ec :: r.1, r.2))
    | none => none
  | c :: cs => (jsonStrAux cs).map (fun r => (c :: r.1, r.2))

/-- Numeric value of a run of decimal digits. -/
def digitsVal (ds : List Char) : Nat := ds.foldl (fun n c => n * 10 + (c.toNat - 48)) 0

/-- A decimal number at the head of the input: optional minus sign, integer
digits, optional fractional digits.  Returns its rational value and the rest. -/
def jsonNum (cs : List Char) : Option (ℚ × List Char) :=
  let (neg, cs₁) := match cs with
    | '-' :: rest => (true, rest)
    | _ => (false, cs)
  let intDigits := cs₁.takeWhile Char.isDigit
  let cs₂ := cs₁.dropWhile Char.isDigit
  if intDigits.isEmpty then none
  else
    let (fracDigits, rest) := match cs₂ with
      | '.' :: cs₃ =>
        (cs₃.takeWhile Char.isDigit, cs₃.dropWhile Char.isDigit)
      | _ => ([], cs₂)
    if cs₂ ≠ [] ∧ cs₂.head? = some '.' ∧ fracDigits.isEmpty then none
    else
      let mag : ℚ := (digitsVal intDigits : ℚ)
        + (digitsVal fracDigits : ℚ) / ((10 ^ fracDigits.length : Nat) : ℚ)
      some (if neg then -mag else mag, rest)

/-- Parsing modes of `jsonParse`: a single value, the items of an array after
its first element position, or the fields of an object after its first key
position. -/
inductive JsonMode where
  | val
  | arrItems
  | objItems

/-- Fuel-indexed recursive-descent parser behind `jsonLoads`.  In mode
`arrItems` (resp. `objItems`) the result is wrapped as `Json.arr`
(resp. `Json.obj`). -/
def jsonParse : Nat → JsonMode → List Char → Option (Json × List Char)
  | 0, _, _ => none
  | fuel + 1, .val, cs =>
    match skipJsonWs cs with
    | [] => none
    | 'n' :: 'u' :: 'l' :: 'l' :: rest => some (.null, rest)
    | 't' :: 'r' :: 'u' :: 'e' :: rest => some (.bool true, rest)
    | 'f' :: 'a' :: 'l' :: 's' :: 'e' :: rest => some (.bool false, rest)
    | '"' :: rest => (jsonStrAux rest).map (fun r => (.str ⟨r.1⟩, r.2))
    | '[' :: rest =>
      (match skipJsonWs rest with
       | ']' :: rest' => some (.arr [], rest')
       | _ => jsonParse fuel .arrItems rest)
    | '{' :: rest =>
      (match skipJsonWs rest with
       | '}' :: rest' => some (.obj [], rest')
       | _ => jsonParse fuel .objItems rest)
    | other => (jsonNum other).map (fun r => (.num r.1, r.2))
  | fuel + 1, .arrItems, cs =>
    match jsonParse fuel .val cs with
    | none => none
    | some (v, rest) =>
      match skipJsonWs rest with
      | ',' :: rest' =>
        (match jsonParse fuel .arrItems rest' with
         | some (.arr vs, rest'') => some (.arr (v :: vs), rest'')
         | _ => none)
      | ']' :: rest' => some (.arr [v], rest')
      | _ => none
  | fuel + 1, .objItems, cs =>
    match skipJsonWs cs with
    | '"' :: afterQuote =>
      (match jsonStrAux afterQuote with
       | none => none
       | some (keyChars, rest) =>
         match skipJsonWs rest with
         | ':' :: rest' =>
           (match jsonParse fuel .val rest' with
            | none => none
            | some (v, rest'') =>
              match skipJsonWs rest'' with
              | ',' :: rest₃ =>
                (match jsonParse fuel .objItems rest₃ with
                 | some (.obj fs, rest₄) => some (.obj ((⟨keyChars⟩, v) :: fs), rest₄)
                 | _ => none)
              | '}' :: rest₃ => some (.obj [(⟨keyChars⟩, v)], rest₃)
              | _ => none)
         | _ => none)
    | _ => none

/-- Model of Python's `json.loads`: parse one value and require only
whitespace after it; `none` models a raised `json.JSONDecodeError`. -/
def jsonLoads (cs : List Char) : Option Json :=
  match jsonParse (2 * cs.length + 4) .val cs with
  | some (v, rest) => if (skipJsonWs rest).isEmpty then some v else none
  | none => none

/-! ## The markdown-fence regular expression and `parse_json_response`
(`app/agents/base_agent.py`)

`parse_json_response` first runs Python's
`re.search` with the pattern consisting of three backticks, an optional
`json` tag, optional whitespace, a lazy capture group, optional whitespace
and three closing backticks.  The functions below are an operational model
of that search: the leftmost opening fence from which a match completes
wins; after the optional `json` tag the greedy whitespace skip and the lazy
group make the captured text run to the first closing fence, with leading
and trailing whitespace stripped. -/

/-- The backtick character. -/
def btick : Char := Char.ofNat 96

/-- Python's `\s` class: space, tab, newline, carriage return, form feed and
vertical tab. -/
def isPySpace (c : Char) : Bool :=
  c = ' ' || c = '\t' || c = '\n' || c = '\r' || c = Char.ofNat 12 || c = Char.ofNat 11

/-- Strip trailing `\s` characters. -/
def dropTrailWs (cs : List Char) : List Char := (cs.reverse.dropWhile isPySpace).reverse

/-- Text before the earliest three-backtick run, `none` when there is none
(the lazy group stops at the first closing fence). -/
def contentToFence : List Char → Option (List Char)
  | b1 :: b2 :: b3 :: rest =>
    if b1 = btick ∧ b2 = btick ∧ b3 = btick then some []
    else (contentToFence (b2 :: b3 :: rest)).map (b1 :: ·)
  | _ => none

/-- Match the part of the fence pattern after the optional `json` tag:
greedy whitespace skip, lazy capture to the first closing fence, trailing
whitespace stripped from the capture. -/
def fenceBody (cs : List Char) : Option (List Char) :=
  (contentToFence (cs.dropWhile isPySpace)).map dropTrailWs

/-- Match the fence pattern right after an opening three-backtick run: the
greedy optional `json` tag is tried first, with regex backtracking to the
untagged reading if the tagged one cannot complete. -/
def fenceAfterOpen (cs : List Char) : Option (List Char) :=
  if leadMatch ['j', 's', 'o', 'n'] cs then
    match fenceBody (cs.drop 4) with
    | some g => some g
    | none => fenceBody cs
  else fenceBody cs

/-- Python's `re.search` for the fence pattern: try every start position from
the left; at an opening three-backtick run, succeed iff the rest of the
pattern completes, otherwise resume the scan one character further. -/
def fenceSearch : List Char → Option (List Char)
  | b1 :: b2 :: b3 :: rest =>
    if b1 = btick ∧ b2 = btick ∧ b3 = btick then
      match fenceAfterOpen rest with
      | some g => some g
      | none => fenceSearch (b2 :: b3 :: rest)
    else fenceSearch (b2 :: b3 :: rest)
  | _ => none

/-- The JSON text `parse_json_response` hands to `json.loads`, and its parse:
the fenced capture when the fence pattern matches, the whole response
otherwise; `none` models a raised `json.JSONDecodeError`. -/
def effectiveJson (response : String) : Option Json :=
  match fenceSearch response.toList with
  | some group => jsonLoads group
  | none => jsonLoads response.toList

/-- `BaseInterviewAgent.parse_json_response` of `base_agent.py`: the parsed
JSON value, or the agent's `get_default_response()` when `json.loads`
raises. -/
def parse_json_response (get_default_response : Json) (response : String) : Json :=
  (effectiveJson response).getD get_default_response

/-- `AnswerAnalyzerAgent.get_default_response` of `answer_analyzer.py`. -/
def AnswerAnalyzerAgent.get_default_response : Json :=
  Json.obj
    [("technical_score", Json.num 3),
     ("reasoning_depth", Json.num 3),
     ("communication_clarity", Json.num 3),
     ("structure_score", Json.num 3),
     ("confidence_signals", Json.num 3),
     ("issues_detected", Json.arr []),
     ("feedback", Json.str "Unable to fully evaluate the response."),
     ("follow_up", Json.str "Could you elaborate on your answer?")]

/-! ## Session store and the final-report endpoint
(`app/services/session_store.py`, `app/api/interview.py`)

The endpoint reads two things from an orchestrator: its `is_complete` flag
and its `generate_final_report` coroutine.  The latter is an external
LLM-backed call, passed here as an oracle `generate`; the third component of
the endpoint's result counts how many times that oracle was invoked. -/

/-- The slice of `InterviewOrchestrator` that `get_final_report` reads. -/
structure OrchestratorModel where
  user_id : String
  is_complete : Bool
deriving DecidableEq, Repr

/-- The `FinalReport` pydantic model (fields not read by the endpoint or the
store are omitted; equality of this record is equality of the report). -/
structure FinalReport where
  session_id : Nat
  technical_level_estimate : String
  overall_score : ℚ
deriving DecidableEq, Repr

/-- `InterviewSessionStore` of `session_store.py`: the `_sessions` and
`_reports` dicts as association lists (first binding wins, as
`store_report` prepends). -/
structure InterviewSessionStore where
  _sessions : List (Nat × OrchestratorModel)
  _reports : List (Nat × FinalReport)
deriving DecidableEq, Repr

/-- `InterviewSessionStore.get_session`. -/
def InterviewSessionStore.get_session (store : InterviewSessionStore)
    (session_id : Nat) : Option OrchestratorModel :=
  store._sessions.lookup session_id

/-- `InterviewSessionStore.get_report`. -/
def InterviewSessionStore.get_report (store : InterviewSessionStore)
    (session_id : Nat) : Option FinalReport :=
  store._reports.lookup session_id

/-- `InterviewSessionStore.store_report`: dict assignment, modelled by a
prepend that shadows any earlier binding. -/
def InterviewSessionStore.store_report (store : InterviewSessionStore)
    (session_id : Nat) (report : FinalReport) : InterviewSessionStore :=
  { store with _reports := (session_id, report) :: store._reports }

/-- Outcome of the `GET .../report` endpoint: the report, or the 404/400
`HTTPException`s of `interview.py`. -/
inductive ReportResult where
  | ok (report : FinalReport)
  | notFound
  | badRequest
deriving DecidableEq, Repr

/-- `get_final_report` of `app/api/interview.py`: cached report first, then
404 for a missing session, 400 for an incomplete one, otherwise generate,
cache and return.  Returns the HTTP outcome, the store afterwards, and the
number of `generate_final_report` invocations. -/
def get_final_report (generate : Nat → FinalReport)
    (store : InterviewSessionStore) (session_id : Nat) :
    ReportResult × InterviewSessionStore × Nat :=
  match store.get_report session_id with
  | some cached_report => (.ok cached_report, store, 0)
  | none =>
    match store.get_session session_id with
    | none => (.notFound, store, 0)
    | some orchestrator =>
      if orchestrator.is_complete then
        let report := generate session_id
        (.ok report, store.store_report session_id report, 1)
      else
        (.badRequest, store, 0)

/-! ## Concrete sample values used by witnesses and counterexamples -/

/-- An evaluation with the five given scores and issue tags (text fields
empty). -/
def sampleEval (t r c s cf : Int) (issues : List String) : AnswerEvaluation :=
  { technical_score := t, reasoning_depth := r, communication_clarity := c
    structure_score := s, confidence_signals := cf, issues_detected := issues
    feedback := "", follow_up_suggestion := "" }

/-- All scores 1 (average 1.0). -/
def evalOnes : AnswerEvaluation := sampleEval 1 1 1 1 1 []

/-- All scores 2 (average 2.0). -/
def evalTwos : AnswerEvaluation := sampleEval 2 2 2 2 2 []

/-- All scores 5 (average 5.0). -/
def evalFives : AnswerEvaluation := sampleEval 5 5 5 5 5 []

/-- Scores 1,1,2,2,2 (average 1.6). -/
def evalEight : AnswerEvaluation := sampleEval 1 1 2 2 2 []

/-- The `InterviewMemory` pydantic defaults: empty lists, zero counters,
trend `"stable"`, average `0.0`. -/
def emptyMemory : InterviewMemory :=
  { asked_questions := [], weak_areas := [], strong_areas := []
    communication_patterns :=
      { rambling := 0, unclear := 0, structured := 0
        verbose := 0, hesitant := 0, confident := 0 }
    performance_trend := "stable", average_score := 0 }

/-- A concrete final report. -/
def sampleReport : FinalReport :=
  { session_id := 1, technical_level_estimate := "Mid", overall_score := 3 }

/-- A completed orchestrator. -/
def sampleOrchDone : OrchestratorModel := { user_id := "u", is_complete := true }

/-- An orchestrator still mid-interview. -/
def sampleOrchActive : OrchestratorModel := { user_id := "u", is_complete := false }

/-- A store holding session 1 with a cached report. -/
def storeWithReport : InterviewSessionStore :=
  { _sessions := [(1, sampleOrchDone)], _reports := [(1, sampleReport)] }

/-- A store holding completed session 3 with no cached report. -/
def storeComplete : InterviewSessionStore :=
  { _sessions := [(3, sampleOrchDone)], _reports := [] }

/-- A store holding incomplete session 2 with no cached report. -/
def storeIncomplete : InterviewSessionStore :=
  { _sessions := [(2, sampleOrchActive)], _reports := [] }

/-! ## Helper lemmas -/

/-- The transition fires exactly when the per-state counter has reached the
state's required question count. -/
theorem check_transition_simple_fires (s : InterviewState) (n : Int) :
    (check_transition_simple s n).should_transition
      = decide (n ≥ STATE_QUESTION_LIMITS s) := by
  unfold check_transition_simple
  by_cases h : n ≥ STATE_QUESTION_LIMITS s
  · simp [h]
  · simp [h]

/-- A driven step either stays put or moves to the order successor. -/
theorem followTransition_cases (s : InterviewState) (n : Int) :
    followTransition s n = s ∨ followTransition s n = get_next_state s := by
  unfold followTransition check_transition_simple
  by_cases h : n ≥ STATE_QUESTION_LIMITS s
  · right; simp [h]
  · left; simp [h]

/-- A driven step keeps the `STATE_ORDER` index or raises it by one. -/
theorem stateIndex_followTransition (s : InterviewState) (n : Int) :
    stateIndex (followTransition s n) = stateIndex s
      ∨ stateIndex (followTransition s n) = stateIndex s + 1 := by
  rcases followTransition_cases s n with h | h <;> rw [h]
  · left; rfl
  · cases s <;> decide

/-- The `STATE_ORDER` index never decreases along a driven sequence. -/
theorem stateIndex_foldl_le (ns : List Int) (s : InterviewState) :
    stateIndex s ≤ stateIndex (ns.foldl followTransition s) := by
  induction ns generalizing s with
  | nil => exact le_rfl
  | cons n ns ih =>
    rw [List.foldl_cons]
    have h1 : stateIndex s ≤ stateIndex (followTransition s n) := by
      rcases stateIndex_followTransition s n with h | h <;> omega
    exact h1.trans (ih (followTransition s n))

/-- `FEEDBACK` is a fixed point of every driven step. -/
theorem followTransition_feedback (n : Int) :
    followTransition InterviewState.FEEDBACK n = InterviewState.FEEDBACK := by
  unfold followTransition check_transition_simple
  by_cases h : n ≥ STATE_QUESTION_LIMITS InterviewState.FEEDBACK
  · simp [h]; rfl
  · simp [h]

/-! ## Claim theorems -/

/-- C1: `get_next_state` maps each state to its immediate successor in the
fixed order INTRO, WARMUP, CORE_QUESTIONS, PRESSURE_ROUND,
COMMUNICATION_TEST, CLOSING, FEEDBACK and maps the terminal FEEDBACK state to
FEEDBACK; consequently, along any sequence of `check_transition_simple`
calls in which the next state returned by a firing transition becomes the
current state of the following call, each step keeps the position in the
order or advances it by exactly one (never skipping a state), and the
position never decreases (never revisiting an earlier state). -/
theorem c1_state_monotonicity :
    (get_next_state .INTRO = .WARMUP
      ∧ get_next_state .WARMUP = .CORE_QUESTIONS
      ∧ get_next_state .CORE_QUESTIONS = .PRESSURE_ROUND
      ∧ get_next_state .PRESSURE_ROUND = .COMMUNICATION_TEST
      ∧ get_next_state .COMMUNICATION_TEST = .CLOSING
      ∧ get_next_state .CLOSING = .FEEDBACK
      ∧ get_next_state .FEEDBACK = .FEEDBACK)
    ∧ (∀ (s : InterviewState) (n : Int),
        stateIndex (followTransition s n) = stateIndex s
          ∨ stateIndex (followTransition s n) = stateIndex s + 1)
    ∧ (∀ (s : InterviewState) (ns : List Int),
        stateIndex s ≤ stateIndex (ns.foldl followTransition s)) :=
  ⟨by decide, stateIndex_followTransition, fun s ns => stateIndex_foldl_le ns s⟩

/-- C2: `check_transition_simple` is a pure function of the state and the
counter; for every state and every counter value `n ≥ 0` it fires exactly
when `n` has reached the state's required count (INTRO 1, WARMUP 1,
CORE_QUESTIONS 3, PRESSURE_ROUND 2, COMMUNICATION_TEST 1, CLOSING 1,
FEEDBACK 0); at CORE_QUESTIONS it does not fire at `n = 2` and fires at
`n = 3` with next state PRESSURE_ROUND. -/
theorem c2_transition_firing_boundary :
    (∀ n : Nat,
      ((check_transition_simple .INTRO (n : Int)).should_transition = decide ((n : Int) ≥ 1))
      ∧ ((check_transition_simple .WARMUP (n : Int)).should_transition = decide ((n : Int) ≥ 1))
      ∧ ((check_transition_simple .CORE_QUESTIONS (n : Int)).should_transition = decide ((n : Int) ≥ 3))
      ∧ ((check_transition_simple .PRESSURE_ROUND (n : Int)).should_transition = decide ((n : Int) ≥ 2))
      ∧ ((check_transition_simple .COMMUNICATION_TEST (n : Int)).should_transition = decide ((n : Int) ≥ 1))
      ∧ ((check_transition_simple .CLOSING (n : Int)).should_transition = decide ((n : Int) ≥ 1))
      ∧ ((check_transition_simple .FEEDBACK (n : Int)).should_transition = decide ((n : Int) ≥ 0)))
    ∧ (check_transition_simple .CORE_QUESTIONS 2).should_transition = false
    ∧ (check_transition_simple .CORE_QUESTIONS 3).should_transition = true
    ∧ (check_transition_simple .CORE_QUESTIONS 3).next_state = .PRESSURE_ROUND := by
  refine ⟨fun n => ?_, by decide, by decide, by decide⟩
  refine ⟨?_, ?_, ?_, ?_, ?_, ?_, ?_⟩ <;> rw [check_transition_simple_fires] <;> rfl

/-- C5: `_clamp_difficulty` sends every integer `n` to
`max 1 (min 5 n)`, which lies in `[1, 5]`, and sends non-numeric input to
exactly 3. -/
theorem c5_clamp_difficulty :
    (∀ n : Int,
      _clamp_difficulty (.ofInt n) = max 1 (min 5 n)
      ∧ 1 ≤ _clamp_difficulty (.ofInt n)
      ∧ _clamp_difficulty (.ofInt n) ≤ 5)
    ∧ _clamp_difficulty .nonNumeric = 3 := by
  refine ⟨fun n => ⟨rfl, ?_, ?_⟩, rfl⟩ <;>
    simp only [_clamp_difficulty, pyIntCoerce] <;> omega

/-- C10: FEEDBACK is absorbing: its required count is 0, so for every
counter value `n ≥ 0` the check fires with next state FEEDBACK; moreover a
driven step from FEEDBACK lands on FEEDBACK for every integer counter, so no
sequence of transition checks can move the orchestrator's state away from
FEEDBACK. -/
theorem c10_feedback_absorbing :
    (∀ n : Int, 0 ≤ n →
      (check_transition_simple .FEEDBACK n).should_transition = true
      ∧ (check_transition_simple .FEEDBACK n).next_state = .FEEDBACK)
    ∧ (∀ n : Int, followTransition .FEEDBACK n = .FEEDBACK)
    ∧ (∀ ns : List Int, ns.foldl followTransition .FEEDBACK = .FEEDBACK) := by
  refine ⟨fun n h => ?_, followTransition_feedback, fun ns => ?_⟩
  · have h' : n ≥ STATE_QUESTION_LIMITS .FEEDBACK := h
    constructor
    · rw [check_transition_simple_fires]; exact decide_eq_true h'
    · unfold check_transition_simple; simp [h']; rfl
  · induction ns with
    | nil => rfl
    | cons n ns ih => rw [List.foldl_cons, followTransition_feedback]; exact ih

/-- Witness for C10 at the concrete counter 0. -/
theorem c10_feedback_absorbing_witness :
    (0 : Int) ≤ 0
    ∧ (check_transition_simple .FEEDBACK 0).should_transition = true
    ∧ (check_transition_simple .FEEDBACK 0).next_state = .FEEDBACK :=
  ⟨by decide, c10_feedback_absorbing.1 0 (by decide)⟩

/-- Adding an indicator keeps an integer counter within one of its old
value. -/
theorem add_ite01_bounds (a : Int) (P : Prop) [Decidable P] :
    a ≤ a + (if P then (1 : Int) else 0)
    ∧ a + (if P then (1 : Int) else 0) ≤ a + 1 := by
  split_ifs <;> omega

/-- C3 (amended): for a non-empty evaluation list, the memory returned by
`update_simple` carries the arithmetic mean of `average_score` over all
evaluations — accumulated left-to-right in double precision and rounded to
two decimal places by `round(x, 2)` — and this value does not depend on the
new evaluation. -/
theorem c3_rolling_average (mem : InterviewMemory) (e e' : AnswerEvaluation)
    (q : String) (evs : List AnswerEvaluation) (h : evs ≠ []) :
    (MemoryAgent.update_simple mem e q evs).average_score
      = pyRound2 (fdivq (evs.foldl (fun acc ev => fadd acc ev.average_score) 0)
          (evs.length : ℚ))
    ∧ (MemoryAgent.update_simple mem e q evs).average_score
      = (MemoryAgent.update_simple mem e' q evs).average_score := by
  have hne : evs.isEmpty = false := by
    cases evs with
    | nil => exact absurd rfl h
    | cons a as => rfl
  constructor
  · simp [MemoryAgent.update_simple, hne]
  · simp [MemoryAgent.update_simple, hne]

/-- Witness for C3 on the one-element list `[evalOnes]`. -/
theorem c3_rolling_average_witness :
    [evalOnes] ≠ ([] : List AnswerEvaluation)
    ∧ (MemoryAgent.update_simple emptyMemory evalOnes "q" [evalOnes]).average_score
      = pyRound2 (fdivq ([evalOnes].foldl (fun acc ev => fadd acc ev.average_score) 0)
          (([evalOnes] : List AnswerEvaluation).length : ℚ)) :=
  ⟨by decide,
   (c3_rolling_average emptyMemory evalOnes evalOnes "q" [evalOnes] (by decide)).1⟩

/-- Counterexample to C3 as stated: with evaluations averaging 1, 1 and 2
the stored rolling average is `round(4/3, 2) = 1.33`, which differs from the
arithmetic mean 4/3 of the three `average_score` values. -/
theorem c3_counterexample :
    ¬ ((MemoryAgent.update_simple emptyMemory evalTwos "q"
          [evalOnes, evalOnes, evalTwos]).average_score
        = ([evalOnes, evalOnes, evalTwos].map AnswerEvaluation.average_score).sum
            / (([evalOnes, evalOnes, evalTwos] : List AnswerEvaluation).length : ℚ)) := by
  decide

/-- C4 (amended): the trend returned by `update_simple` is `"stable"` when
fewer than 4 evaluations exist; with at least 4, it compares the
double-precision mean of the first two `average_score`s against that of the
last two with the double-precision threshold `0.3` (which matches the exact
more-than-0.3 rule except possibly at boundary inputs, see the
counterexample); with average scores 5, 5, 2, 2 the trend is
`"declining"`. -/
theorem c4_performance_trend :
    (∀ (mem : InterviewMemory) (e : AnswerEvaluation) (q : String)
        (evs : List AnswerEvaluation), evs.length < 4 →
      (MemoryAgent.update_simple mem e q evs).performance_trend = "stable")
    ∧ (∀ (mem : InterviewMemory) (e : AnswerEvaluation) (q : String)
        (evs : List AnswerEvaluation), 4 ≤ evs.length →
      (MemoryAgent.update_simple mem e q evs).performance_trend
        = (let first_avg := fdivq ((evs.take 2).foldl
            (fun acc ev => fadd acc ev.average_score) 0) 2
           let last_avg := fdivq ((evs.drop (evs.length - 2)).foldl
            (fun acc ev => fadd acc ev.average_score) 0) 2
           if last_avg > fadd first_avg floatPointThree then "improving"
           else if last_avg < fsub first_avg floatPointThree then "declining"
           else "stable"))
    ∧ (MemoryAgent.update_simple emptyMemory evalTwos "q"
        [evalFives, evalFives, evalTwos, evalTwos]).performance_trend = "declining" := by
  refine ⟨fun mem e q evs h => ?_, fun mem e q evs h => ?_, by decide⟩
  · have h' : ¬ (evs.length ≥ 4) := by omega
    simp [MemoryAgent.update_simple, h']
  · simp [MemoryAgent.update_simple, ge_iff_le, h]

/-- Witness for C4: a one-element list keeps the trend `"stable"` and the
four-element list 5, 5, 2, 2 is classified `"declining"`. -/
theorem c4_performance_trend_witness :
    ([evalOnes] : List AnswerEvaluation).length < 4
    ∧ (MemoryAgent.update_simple emptyMemory evalOnes "q" [evalOnes]).performance_trend
        = "stable"
    ∧ 4 ≤ ([evalFives, evalFives, evalTwos, evalTwos] : List AnswerEvaluation).length
    ∧ (MemoryAgent.update_simple emptyMemory evalTwos "q"
        [evalFives, evalFives, evalTwos, evalTwos]).performance_trend
      = (let first_avg := fdivq (([evalFives, evalFives, evalTwos, evalTwos].take 2).foldl
          (fun acc ev => fadd acc ev.average_score) 0) 2
         let last_avg := fdivq (([evalFives, evalFives, evalTwos, evalTwos].drop
            (([evalFives, evalFives, evalTwos, evalTwos] : List AnswerEvaluation).length - 2)).foldl
          (fun acc ev => fadd acc ev.average_score) 0) 2
         if last_avg > fadd first_avg floatPointThree then "improving"
         else if last_avg < fsub first_avg floatPointThree then "declining"
         else "stable") :=
  ⟨by decide,
   c4_performance_trend.1 emptyMemory evalOnes "q" [evalOnes] (by decide),
   by decide,
   c4_performance_trend.2.1 emptyMemory evalTwos "q"
     [evalFives, evalFives, evalTwos, evalTwos] (by decide)⟩

/-- Counterexample to C4 as stated: with evaluation averages 1.0, 1.0, 1.0
and 1.6, the mean of the last two `average_score` values (the doubles the
program stores) exceeds the mean of the first two by strictly more than 0.3,
so the claim requires `"improving"`, yet the returned trend is `"stable"`,
because the comparison is performed in double precision, where
`(1.0 + 1.6) / 2` and `1.0 + 0.3` both round to the double nearest 1.3. -/
theorem c4_counterexample :
    (MemoryAgent.update_simple emptyMemory evalEight "q"
        [evalOnes, evalOnes, evalOnes, evalEight]).performance_trend = "stable"
    ∧ (([evalOnes, evalEight].map AnswerEvaluation.average_score).sum / 2
        - ([evalOnes, evalOnes].map AnswerEvaluation.average_score).sum / 2 : ℚ)
      > 3 / 10 := by
  constructor
  · decide
  · decide

/-- C6: each communication-pattern counter returned by `update_simple`
equals the old counter plus an indicator: `rambling`, `unclear` and
`verbose` increment exactly when that tag occurs in the new evaluation's
`issues_detected`, `structured` exactly when `structure_score ≥ 4`,
`hesitant` exactly when `confidence_signals ≤ 2`, `confident` exactly when
`confidence_signals ≥ 4`; hence no counter decreases or grows by more than
one. -/
theorem c6_communication_counters (mem : InterviewMemory) (e : AnswerEvaluation)
    (q : String) (evs : List AnswerEvaluation) :
    ((MemoryAgent.update_simple mem e q evs).communication_patterns.rambling
      = mem.communication_patterns.rambling
        + (if "rambling" ∈ e.issues_detected then 1 else 0))
    ∧ ((MemoryAgent.update_simple mem e q evs).communication_patterns.unclear
      = mem.communication_patterns.unclear
        + (if "unclear" ∈ e.issues_detected then 1 else 0))
    ∧ ((MemoryAgent.update_simple mem e q evs).communication_patterns.verbose
      = mem.communication_patterns.verbose
        + (if "verbose" ∈ e.issues_detected then 1 else 0))
    ∧ ((MemoryAgent.update_simple mem e q evs).communication_patterns.structured
      = mem.communication_patterns.structured
        + (if e.structure_score ≥ 4 then 1 else 0))
    ∧ ((MemoryAgent.update_simple mem e q evs).communication_patterns.hesitant
      = mem.communication_patterns.hesitant
        + (if e.confidence_signals ≤ 2 then 1 else 0))
    ∧ ((MemoryAgent.update_simple mem e q evs).communication_patterns.confident
      = mem.communication_patterns.confident
        + (if e.confidence_signals ≥ 4 then 1 else 0))
    ∧ (mem.communication_patterns.rambling
        ≤ (MemoryAgent.update_simple mem e q evs).communication_patterns.rambling
      ∧ (MemoryAgent.update_simple mem e q evs).communication_patterns.rambling
        ≤ mem.communication_patterns.rambling + 1)
    ∧ (mem.communication_patterns.unclear
        ≤ (MemoryAgent.update_simple mem e q evs).communication_patterns.unclear
      ∧ (MemoryAgent.update_simple mem e q evs).communication_patterns.unclear
        ≤ mem.communication_patterns.unclear + 1)
    ∧ (mem.communication_patterns.verbose
        ≤ (MemoryAgent.update_simple mem e q evs).communication_patterns.verbose
      ∧ (MemoryAgent.update_simple mem e q evs).communication_patterns.verbose
        ≤ mem.communication_patterns.verbose + 1)
    ∧ (mem.communication_patterns.structured
        ≤ (MemoryAgent.update_simple mem e q evs).communication_patterns.structured
      ∧ (MemoryAgent.update_simple mem e q evs).communication_patterns.structured
        ≤ mem.communication_patterns.structured + 1)
    ∧ (mem.communication_patterns.hesitant
        ≤ (MemoryAgent.update_simple mem e q evs).communication_patterns.hesitant
      ∧ (MemoryAgent.update_simple mem e q evs).communication_patterns.hesitant
        ≤ mem.communication_patterns.hesitant + 1)
    ∧ (mem.communication_patterns.confident
        ≤ (MemoryAgent.update_simple mem e q evs).communication_patterns.confident
      ∧ (MemoryAgent.update_simple mem e q evs).communication_patterns.confident
        ≤ mem.communication_patterns.confident + 1) :=
  ⟨rfl, rfl, rfl, rfl, rfl, rfl,
   add_ite01_bounds _ _, add_ite01_bounds _ _, add_ite01_bounds _ _,
   add_ite01_bounds _ _, add_ite01_bounds _ _, add_ite01_bounds _ _⟩

/-- C7 (amended): `parse_json_response` always returns a value: the parsed
JSON of the fenced content when the markdown fence matches (with or without
the `json` language tag), the parsed JSON of the whole response otherwise,
and the agent's default object on any parse failure; the answer analyzer's
default has all five scores equal to 3 and an empty `issues_detected` list.
The returned value is a dictionary whenever the parsed top-level JSON is an
object, but a top-level non-object JSON value is returned as-is (see the
counterexample). -/
theorem c7_parse_json_fallback :
    (∀ (d : Json) (r : String), effectiveJson r = none → parse_json_response d r = d)
    ∧ (∀ (d : Json) (r : String) (v : Json),
        effectiveJson r = some v → parse_json_response d r = v)
    ∧ parse_json_response AnswerAnalyzerAgent.get_default_response
        "```json\n\x7b\"technical_score\": 4\x7d\n```"
      = Json.obj [("technical_score", Json.num 4)]
    ∧ parse_json_response AnswerAnalyzerAgent.get_default_response
        "```\n\x7b\"technical_score\": 4\x7d\n```"
      = Json.obj [("technical_score", Json.num 4)]
    ∧ parse_json_response AnswerAnalyzerAgent.get_default_response
        "I could not produce JSON."
      = AnswerAnalyzerAgent.get_default_response
    ∧ AnswerAnalyzerAgent.get_default_response.objLookup "technical_score"
      = some (Json.num 3)
    ∧ AnswerAnalyzerAgent.get_default_response.objLookup "reasoning_depth"
      = some (Json.num 3)
    ∧ AnswerAnalyzerAgent.get_default_response.objLookup "communication_clarity"
      = some (Json.num 3)
    ∧ AnswerAnalyzerAgent.get_default_response.objLookup "structure_score"
      = some (Json.num 3)
    ∧ AnswerAnalyzerAgent.get_default_response.objLookup "confidence_signals"
      = some (Json.num 3)
    ∧ AnswerAnalyzerAgent.get_default_response.objLookup "issues_detected"
      = some (Json.arr []) :=
  ⟨fun d r h => by unfold parse_json_response; rw [h]; rfl,
   fun d r v h => by unfold parse_json_response; rw [h]; rfl,
   rfl, rfl, rfl, rfl, rfl, rfl, rfl, rfl, rfl⟩

/-- Witness for C7: a non-JSON reply falls back to the default and a bare
JSON reply is returned parsed. -/
theorem c7_parse_json_fallback_witness :
    effectiveJson "I could not produce JSON." = none
    ∧ parse_json_response Json.null "I could not produce JSON." = Json.null
    ∧ effectiveJson "7" = some (Json.num 7)
    ∧ parse_json_response Json.null "7" = Json.num 7 :=
  ⟨rfl, c7_parse_json_fallback.1 Json.null "I could not produce JSON." rfl,
   rfl, c7_parse_json_fallback.2.1 Json.null "7" (Json.num 7) rfl⟩

/-- Counterexample to C7 as stated: the response `"[1, 2, 3]"` is valid JSON
whose top-level value is a list, and `parse_json_response` returns that list
unchanged — not a dictionary. -/
theorem c7_counterexample :
    parse_json_response AnswerAnalyzerAgent.get_default_response "[1, 2, 3]"
      = Json.arr [Json.num 1, Json.num 2, Json.num 3]
    ∧ Json.isObj (parse_json_response AnswerAnalyzerAgent.get_default_response
        "[1, 2, 3]") = false :=
  ⟨rfl, rfl⟩

/-- C8: a cached report is returned as-is with no regeneration and no store
change; and after a first generation for a complete session, a second
request returns the identical report from the cache with no further
generation. -/
theorem c8_report_cached :
    (∀ (generate : Nat → FinalReport) (store : InterviewSessionStore)
        (sid : Nat) (r : FinalReport),
      store.get_report sid = some r →
      get_final_report generate store sid = (.ok r, store, 0))
    ∧ (∀ (generate : Nat → FinalReport) (store : InterviewSessionStore)
        (sid : Nat) (orch : OrchestratorModel),
      store.get_report sid = none →
      store.get_session sid = some orch →
      orch.is_complete = true →
      get_final_report generate store sid
        = (.ok (generate sid), store.store_report sid (generate sid), 1)
      ∧ get_final_report generate (store.store_report sid (generate sid)) sid
        = (.ok (generate sid), store.store_report sid (generate sid), 0)) := by
  constructor
  · intro generate store sid r h
    unfold get_final_report
    rw [h]
  · intro generate store sid orch hrep hsess hic
    constructor
    · unfold get_final_report
      rw [hrep, hsess]
      simp [hic]
    · unfold get_final_report
      have hcached : (store.store_report sid (generate sid)).get_report sid
          = some (generate sid) := by
        unfold InterviewSessionStore.get_report InterviewSessionStore.store_report
        simp [List.lookup]
      rw [hcached]

/-- Witness for C8 on concrete stores: session 1 with a cached report, and
completed session 3 generating then serving from the cache. -/
theorem c8_report_cached_witness :
    storeWithReport.get_report 1 = some sampleReport
    ∧ get_final_report (fun _ => sampleReport) storeWithReport 1
        = (.ok sampleReport, storeWithReport, 0)
    ∧ storeComplete.get_report 3 = none
    ∧ storeComplete.get_session 3 = some sampleOrchDone
    ∧ sampleOrchDone.is_complete = true
    ∧ (get_final_report (fun _ => sampleReport) storeComplete 3
        = (.ok sampleReport, storeComplete.store_report 3 sampleReport, 1)
      ∧ get_final_report (fun _ => sampleReport)
          (storeComplete.store_report 3 sampleReport) 3
        = (.ok sampleReport, storeComplete.store_report 3 sampleReport, 0)) :=
  ⟨rfl,
   c8_report_cached.1 (fun _ => sampleReport) storeWithReport 1 sampleReport rfl,
   rfl, rfl, rfl,
   c8_report_cached.2 (fun _ => sampleReport) storeComplete 3 sampleOrchDone rfl rfl rfl⟩

/-- C9: requesting the report of a session that exists but is not complete
(and has no cached report, the only reachable combination) yields the
bad-request outcome, leaves the store unchanged, caches nothing for that
session and never invokes report generation. -/
theorem c9_incomplete_bad_request
    (generate : Nat → FinalReport) (store : InterviewSessionStore)
    (sid : Nat) (orch : OrchestratorModel)
    (hsess : store.get_session sid = some orch)
    (hic : orch.is_complete = false)
    (hrep : store.get_report sid = none) :
    get_final_report generate store sid = (.badRequest, store, 0)
    ∧ ((get_final_report generate store sid).2.1).get_report sid = none := by
  have hmain : get_final_report generate store sid = (.badRequest, store, 0) := by
    unfold get_final_report
    rw [hrep, hsess]
    simp [hic]
  exact ⟨hmain, by rw [hmain]; exact hrep⟩

/-- Witness for C9 on the concrete incomplete session 2. -/
theorem c9_incomplete_bad_request_witness :
    storeIncomplete.get_session 2 = some sampleOrchActive
    ∧ sampleOrchActive.is_complete = false
    ∧ storeIncomplete.get_report 2 = none
    ∧ get_final_report (fun _ => sampleReport) storeIncomplete 2
        = (.badRequest, storeIncomplete, 0)
    ∧ ((get_final_report (fun _ => sampleReport) storeIncomplete 2).2.1).get_report 2
        = none :=
  ⟨rfl, rfl, rfl,
   (c9_incomplete_bad_request (fun _ => sampleReport) storeIncomplete 2
     sampleOrchActive rfl rfl rfl).1,
   (c9_incomplete_bad_request (fun _ => sampleReport) storeIncomplete 2
     sampleOrchActive rfl rfl rfl).2⟩
